import Mathlib

/-!
Verification development for the LLM orchestration service
(`src/python/llm_service.py`): prompt optimizer, response cache,
token/usage tracker, routing and the fallback `complete` loop.

The Python code is shallowly embedded:
* strings are Lean `String`s processed over their `List Char` data;
* Python floats (prices, timestamps) are modelled as exact rationals `ℚ`
  (all claim-relevant arithmetic is on small decimal constants where the
  float/rational distinction is immaterial);
* the external provider SDK calls inside each `complete_with_*` adapter are
  modelled by an oracle (`Env.invoke`) giving the text / token-count /
  latency outcome each adapter would compute from its SDK response;
* Python dictionaries are association lists with first-match lookup;
* exceptions are `Except`; the loop variables of `complete` become
  explicit recursion parameters.

Scanning functions (substring replacement, regex-like collapses) are
written with an explicit fuel parameter (always called with fuel at least
the length of the scanned list, which each step strictly consumes) so
that everything is structurally recursive and kernel-computable.
-/

set_option maxRecDepth 10000

/-- Python `str.capitalize`: first character upper-cased, the rest lower-cased. -/
def pyCapitalize (s : String) : String :=
  match s.data with
  | [] => ""
  | c :: rest => (Char.toUpper c :: rest.map Char.toLower).asString

/-- Python `str.lower` (ASCII; all source strings are ASCII). -/
def strLower (s : String) : String :=
  (s.data.map Char.toLower).asString

/-- Python `str.replace pat rep`: replace all non-overlapping occurrences,
scanning left to right.  Fuel-based scanner; every call site passes fuel
`≥` the list length, which suffices because each step consumes at least one
character (every pattern occurring in the source is nonempty). -/
def replaceAllFuel (pat rep : List Char) : Nat → List Char → List Char
  | 0, s => s
  | _+1, [] => []
  | fuel+1, c :: cs =>
    if pat.isPrefixOf (c :: cs) then
      rep ++ replaceAllFuel pat rep fuel (List.drop pat.length (c :: cs))
    else
      c :: replaceAllFuel pat rep fuel cs

/-- Python `s.replace(pat, rep)` on `String`s. -/
def strReplace (s pat rep : String) : String :=
  (replaceAllFuel pat.data rep.data (s.data.length + 1) s.data).asString

/-- Python `pat in s` substring test. -/
def containsSub (pat : List Char) : List Char → Bool
  | [] => pat.isEmpty
  | c :: rest => pat.isPrefixOf (c :: rest) || containsSub pat rest

/-- Python `pat in s` on `String`s. -/
def strContains (s pat : String) : Bool :=
  containsSub pat.data s.data

/-- Python `re.sub(ch*, …)` for the two whitespace collapses in the source:
every maximal run of `ch` of length `≥ minRun` is replaced by exactly
`keep` copies of `ch`; shorter runs are kept verbatim. -/
def collapseRunsFuel (ch : Char) (minRun keep : Nat) : Nat → List Char → List Char
  | 0, s => s
  | _+1, [] => []
  | fuel+1, c :: rest =>
    if c == ch then
      let run := (rest.takeWhile (fun d => d == ch)).length + 1
      let rest2 := rest.dropWhile (fun d => d == ch)
      (if minRun ≤ run then List.replicate keep ch else List.replicate run ch) ++
        collapseRunsFuel ch minRun keep fuel rest2
    else c :: collapseRunsFuel ch minRun keep fuel rest

/-- Python `str.strip`: drop leading and trailing whitespace. -/
def pyStrip (s : List Char) : List Char :=
  ((s.dropWhile Char.isWhitespace).reverse.dropWhile Char.isWhitespace).reverse

/-- Python `str.split()` (no argument): split on whitespace runs, dropping
empty tokens. -/
def pySplitFuel : Nat → List Char → List (List Char)
  | 0, _ => []
  | fuel+1, s =>
    let s1 := s.dropWhile Char.isWhitespace
    match s1 with
    | [] => []
    | c :: rest =>
      (c :: rest.takeWhile (fun d => !d.isWhitespace)) ::
        pySplitFuel fuel (rest.dropWhile (fun d => !d.isWhitespace))

/-- Python `str.split()` on `String`s. -/
def pySplit (s : String) : List String :=
  (pySplitFuel (s.data.length + 1) s.data).map List.asString

/-- Python `sep.join(parts)`. -/
def joinSep (sep : String) : List String → String
  | [] => ""
  | [x] => x
  | x :: y :: rest => x ++ sep ++ joinSep sep (y :: rest)

/-- ASCII apostrophe, used to build the source literal for one filler phrase. -/
def apoChar : Char := Char.ofNat 39

namespace PromptOptimizer

/-- `PromptOptimizer.FILLER_PHRASES` from the source. -/
def FILLER_PHRASES : List String :=
  ["please ", "kindly ", "I would like you to ", "Can you please ",
   "I want you to ", "I need you to ", "Please help me ",
   "Could you ", "Would you ", "I" ++ String.singleton apoChar ++ "m looking for "]

/-- `PromptOptimizer.REPLACEMENTS` from the source, in dict insertion order. -/
def REPLACEMENTS : List (String × String) :=
  [("provide a detailed explanation of", "explain"),
   ("give me information about", "describe"),
   ("can you tell me about", "describe"),
   ("what is the meaning of", "define"),
   ("provide an analysis of", "analyze"),
   ("give a summary of", "summarize"),
   ("provide a list of", "list")]

/-- `estimate_tokens`: `max(len(text) // 4, len(text.split()) * 4 // 3)`. -/
def estimate_tokens (text : String) : Nat :=
  max (text.data.length / 4) ((pySplit text).length * 4 / 3)

/-- Step 1 of `optimize_prompt`: for each filler phrase, remove the phrase
and its `capitalize()` variant by plain substring replacement. -/
def removeFillers (s : String) : String :=
  FILLER_PHRASES.foldl (fun acc f => strReplace (strReplace acc f "") (pyCapitalize f) "") s

/-- Step 2 of `optimize_prompt`: for each (verbose, concise) pair in order,
lower-case the whole prompt and replace the verbose pattern. -/
def applyReplacements (s : String) : String :=
  REPLACEMENTS.foldl (fun acc vr => strReplace (strLower acc) vr.1 vr.2) s

/-- Step 3 of `optimize_prompt`: `re.sub(newline-runs of 3+, 2 newlines)`,
`re.sub(space-runs of 2+, 1 space)`, then `strip()`. -/
def collapseWhitespace (s : String) : String :=
  let a := collapseRunsFuel (Char.ofNat 10) 3 2 (s.data.length + 1) s.data
  let b := collapseRunsFuel ' ' 2 1 (a.length + 1) a
  (pyStrip b).asString

/-- The alternation of the step-4 `re.split` pattern, in source order. -/
def MARKERS : List String :=
  ["CONTEXT:", "TRANSCRIPT:", "MEETING CONTEXT:", "MEETING TRANSCRIPT:"]

/-- Try to match one of the markers (case-insensitively, alternatives in
source order) at the head of `s`; return the matched length. -/
def matchMarkerAt (s : List Char) : Option Nat :=
  MARKERS.findSome? fun m =>
    if (m.data.map Char.toLower).isPrefixOf (s.map Char.toLower) then some m.data.length
    else none

/-- `re.split` with one capture group: the result alternates between
non-matching text and the (original-cased) matched markers, beginning and
ending with text pieces. -/
def splitMarkersFuel : Nat → List Char → List Char → List String
  | 0, acc, s => [(acc.reverse ++ s).asString]
  | _+1, acc, [] => [acc.reverse.asString]
  | fuel+1, acc, c :: rest =>
    match matchMarkerAt (c :: rest) with
    | some n =>
      acc.reverse.asString :: ((c :: rest).take n).asString ::
        splitMarkersFuel fuel [] ((c :: rest).drop n)
    | none => splitMarkersFuel fuel (c :: acc) rest

/-- `re.split(markers with capture, s, flags=IGNORECASE)`. -/
def splitMarkers (s : String) : List String :=
  splitMarkersFuel (s.data.length + 1) [] s.data

/-- Step 4 of `optimize_prompt`: if the (case-sensitive) guard finds
`CONTEXT:` or `TRANSCRIPT:`, split at the section markers and truncate an
over-budget context block to its last `int(budget * 0.75)` words, with an
ellipsis prefix.  `int(b * 0.75)` is exactly `b * 3 / 4` for the integer
budgets involved; Python `words[-n:]` with `n = 0` yields the whole list. -/
def truncateContext (max_context_tokens : Nat) (s : String) : String :=
  if strContains s "CONTEXT:" || strContains s "TRANSCRIPT:" then
    let parts := splitMarkers s
    if 3 ≤ parts.length then
      let header := parts.getD 0 "" ++ parts.getD 1 ""
      let context := if 2 < parts.length then parts.getD 2 "" else ""
      let rest := if 3 < parts.length then joinSep "" (parts.drop 3) else ""
      let context2 :=
        if max_context_tokens < estimate_tokens context then
          let words := pySplit context
          let max_words := max_context_tokens * 3 / 4
          "..." ++ joinSep " " (if max_words = 0 then words else words.drop (words.length - max_words))
        else context
      header ++ context2 ++ rest
    else s
  else s

/-- Match one unit of the step-5 patterns: the phrase, an optional dot,
then greedy whitespace; returns the remainder. -/
def matchUnit (phrase : List Char) (s : List Char) : Option (List Char) :=
  if phrase.isPrefixOf s then
    let s1 := s.drop phrase.length
    let s2 := match s1 with
      | c :: r => if c == Char.ofNat 46 then r else s1
      | [] => s1
    some (s2.dropWhile Char.isWhitespace)
  else none

/-- Greedy `(unit)+`: one or more consecutive units; returns the remainder. -/
def matchPlusFuel (phrase : List Char) : Nat → List Char → Option (List Char)
  | 0, _ => none
  | fuel+1, s =>
    match matchUnit phrase s with
    | none => none
    | some r =>
      match matchPlusFuel phrase fuel r with
      | some r2 => some r2
      | none => some r

/-- `re.sub((phrase\.?\s*)+, rep, s)`: replace every maximal run. -/
def subPhraseRunFuel (phrase rep : List Char) : Nat → List Char → List Char
  | 0, s => s
  | _+1, [] => []
  | fuel+1, c :: rest =>
    match matchPlusFuel phrase ((c :: rest).length + 1) (c :: rest) with
    | some r => rep ++ subPhraseRunFuel phrase rep fuel r
    | none => c :: subPhraseRunFuel phrase rep fuel rest

/-- Step 5 of `optimize_prompt`: collapse runs of `Be concise` to a single
occurrence and strip `Keep it brief` runs entirely. -/
def dedupeInstructions (s : String) : String :=
  let s1 := subPhraseRunFuel "Be concise".data "Be concise. ".data (s.data.length + 1) s.data
  (subPhraseRunFuel "Keep it brief".data [] (s1.length + 1) s1).asString

/-- `PromptOptimizer.optimize_prompt` from the source: the five numbered
steps applied in order. -/
def optimize_prompt (prompt : String) (max_context_tokens : Nat := 2000) : String :=
  dedupeInstructions
    (truncateContext max_context_tokens
      (collapseWhitespace (applyReplacements (removeFillers prompt))))

end PromptOptimizer

namespace TokenTracker

/-- Per-provider entry of `session_stats["by_provider"]`. -/
structure ProviderStats where
  input_tokens : Nat
  output_tokens : Nat
  cost : ℚ
  requests : Nat
deriving DecidableEq

/-- The tracker state `session_stats` (the Usage Ledger): global counters
plus the per-provider breakdown, an insertion-ordered dict modelled as an
association list with unique keys. -/
structure SessionStats where
  total_input_tokens : Nat
  total_output_tokens : Nat
  total_cost : ℚ
  requests : Nat
  by_provider : List (String × ProviderStats)
deriving DecidableEq

/-- The dictionary returned by `track`. -/
structure TrackDelta where
  input_tokens : Nat
  output_tokens : Nat
  cost : ℚ
  provider : String
deriving DecidableEq

/-- `TokenTracker.PRICING`: static per-million-token rates by family. -/
def PRICING : List (String × ℚ × ℚ) :=
  [("euri", 0, 0),
   ("deepseek", 0.14, 0.28),
   ("gemini", 0.075, 0.30),
   ("openai", 0.15, 0.60),
   ("groq", 0.05, 0.08),
   ("anthropic", 0.80, 4.00)]

/-- `self.PRICING.get(provider_key, the default rate dict)`. -/
def pricingFor (key : String) : ℚ × ℚ :=
  (PRICING.lookup key).getD (0.1, 0.3)

/-- Python `provider.lower().split("-")[0]`: the lower-cased text before the
first dash. -/
def firstDashSegment (s : String) : String :=
  ((strLower s).data.takeWhile (fun c => !(c == Char.ofNat 45))).asString

/-- The provider-family resolution at the top of `track`: take the first
dash-segment of the lower-cased id, substitute `gpt → openai` and
`claude → anthropic`, then the alias `elif` chain. -/
def providerKey (provider : String) : String :=
  let k := strReplace (strReplace (firstDashSegment provider) "gpt" "openai") "claude" "anthropic"
  if strContains k "euri" then "euri"
  else if strContains k "deepseek" then "deepseek"
  else if strContains k "gemini" then "gemini"
  else if strContains k "groq" || strContains k "llama" then "groq"
  else k

/-- Update of `session_stats["by_provider"]` in `track`: the entry is
created zeroed when missing (Python dict append at the end) and then
incremented. -/
def bumpProvider (key : String) (it ot : Nat) (c : ℚ) :
    List (String × ProviderStats) → List (String × ProviderStats)
  | [] => [(key, ⟨it, ot, c, 1⟩)]
  | (k, v) :: rest =>
    if k = key then
      (k, ⟨v.input_tokens + it, v.output_tokens + ot, v.cost + c, v.requests + 1⟩) :: rest
    else (k, v) :: bumpProvider key it ot c rest

/-- `TokenTracker.reset` (also the `__init__` state). -/
def reset : SessionStats := ⟨0, 0, 0, 0, []⟩

/-- `TokenTracker.track`: resolve the family, price the tokens, add into
both the global ledger and the per-provider breakdown, and return the
delta dictionary. -/
def track (stats : SessionStats) (provider : String) (input_tokens output_tokens : Nat) :
    SessionStats × TrackDelta :=
  let key := providerKey provider
  let pricing := pricingFor key
  let input_cost := (input_tokens : ℚ) / 1000000 * pricing.1
  let output_cost := (output_tokens : ℚ) / 1000000 * pricing.2
  let total_cost := input_cost + output_cost
  let stats2 : SessionStats :=
    { total_input_tokens := stats.total_input_tokens + input_tokens
      total_output_tokens := stats.total_output_tokens + output_tokens
      total_cost := stats.total_cost + total_cost
      requests := stats.requests + 1
      by_provider := bumpProvider key input_tokens output_tokens total_cost stats.by_provider }
  (stats2, ⟨input_tokens, output_tokens, total_cost, key⟩)

end TokenTracker


/-- The `LLMRequest` pydantic model (the `context` field is never read by
`complete` and is omitted; `temperature` is modelled as `ℚ`). -/
structure LLMRequest where
  prompt : String
  task_type : String
  max_tokens : Nat
  temperature : ℚ
deriving DecidableEq

/-- The `LLMResponse` pydantic model (the `confidence` field is always its
default `None` on the `complete` path and is omitted). -/
structure LLMResponse where
  text : String
  model_used : String
  tokens_used : Nat
  processing_time_ms : Nat
  fallback_used : Bool
deriving DecidableEq

/-- `get_cache_key`: the source hashes `f-string of task_type, ":", prompt`
with MD5 and uses the hex digest as key; the digest is modelled by the
hashed content itself, which has the same key-equality structure
(identical (taskType, optimizedPrompt) pairs agree on the key). -/
def get_cache_key (prompt : String) (task_type : String) : String :=
  task_type ++ ":" ++ prompt

/-- The module-level `cache` dict: key, entry timestamp, entry data. -/
abbrev Cache := List (String × ℚ × LLMResponse)

/-- Removal of a key from the cache dict (`del cache[key]`). -/
def cacheErase (key : String) (c : Cache) : Cache :=
  c.filter (fun e => !(e.1 == key))

/-- `get_from_cache` at wall-clock time `now`: a present entry younger than
3600 seconds is returned; an expired entry is deleted (lazy eviction) and
the lookup reports absent.  Returns the result together with the possibly
mutated cache. -/
def get_from_cache (now : ℚ) (key : String) (c : Cache) : Option LLMResponse × Cache :=
  match List.lookup key c with
  | some (ts, data) => if now - ts < 3600 then (some data, c) else (none, cacheErase key c)
  | none => (none, c)

/-- `save_to_cache` at wall-clock time `now`: overwrite the entry. -/
def save_to_cache (key : String) (data : LLMResponse) (now : ℚ) (c : Cache) : Cache :=
  (key, now, data) :: cacheErase key c

/-- One adapter invocation as built by the lambdas in `complete`: which
`complete_with_*` function is called, and with which prompt / max_tokens /
temperature / model arguments (model defaults of the Python signatures are
applied). -/
inductive AdapterCall where
  | gemini (prompt : String) (maxTokens : Nat) (temperature : ℚ)
  | openai (prompt : String) (maxTokens : Nat) (temperature : ℚ) (model : String)
  | anthropic (prompt : String) (maxTokens : Nat) (temperature : ℚ)
  | euri (prompt : String) (maxTokens : Nat) (temperature : ℚ)
  | groq (prompt : String) (maxTokens : Nat) (temperature : ℚ) (model : String)
  | deepseek (prompt : String) (maxTokens : Nat) (temperature : ℚ) (model : String)
deriving DecidableEq

/-- The `prompt` argument of an adapter call. -/
def AdapterCall.promptArg : AdapterCall → String
  | .gemini p _ _ => p
  | .openai p _ _ _ => p
  | .anthropic p _ _ => p
  | .euri p _ _ => p
  | .groq p _ _ _ => p
  | .deepseek p _ _ _ => p

/-- The `max_tokens` argument of an adapter call. -/
def AdapterCall.maxTokensArg : AdapterCall → Nat
  | .gemini _ m _ => m
  | .openai _ m _ _ => m
  | .anthropic _ m _ => m
  | .euri _ m _ => m
  | .groq _ m _ _ => m
  | .deepseek _ m _ _ => m

/-- The `temperature` argument of an adapter call. -/
def AdapterCall.temperatureArg : AdapterCall → ℚ
  | .gemini _ _ t => t
  | .openai _ _ t _ => t
  | .anthropic _ _ t => t
  | .euri _ _ t => t
  | .groq _ _ t _ => t
  | .deepseek _ _ t _ => t

/-- What an adapter call produces from its external SDK response: the
response text, the token count the adapter computes (provider-reported
usage, or the adapter word-count fallback), and the measured latency. -/
structure ProviderOutcome where
  text : String
  tokens : Nat
  processing_time_ms : Nat
deriving DecidableEq

/-- The result dict a `complete_with_*` function returns. -/
structure ProviderResult where
  text : String
  model : String
  tokens : Nat
  processing_time_ms : Nat
deriving DecidableEq

/-- The process environment: which clients were configured at startup
(`euri_client is not None` etc.), the `EURI_MODEL` configuration, and the
oracle for the external network calls. -/
structure Env where
  euri_client : Bool
  deepseek_client : Bool
  gemini_client : Bool
  openai_client : Bool
  groq_client : Bool
  anthropic_client : Bool
  euri_model : String
  invoke : AdapterCall → Except String ProviderOutcome

/-- Whether the client needed by the call is configured. -/
def clientAvailable (env : Env) : AdapterCall → Bool
  | .gemini .. => env.gemini_client
  | .openai .. => env.openai_client
  | .anthropic .. => env.anthropic_client
  | .euri .. => env.euri_client
  | .groq .. => env.groq_client
  | .deepseek .. => env.deepseek_client

/-- The `model` field each `complete_with_*` function puts in its result
dict. -/
def modelName (env : Env) : AdapterCall → String
  | .gemini .. => "gemini-2.0-flash-exp"
  | .openai _ _ _ m => m
  | .anthropic .. => "claude-3-5-haiku"
  | .euri .. => "euri-" ++ env.euri_model
  | .groq _ _ _ m => "groq-" ++ m
  | .deepseek _ _ _ m => "deepseek-" ++ m

/-- The `not available` message of each `complete_with_*` function. -/
def adapterUnavailableMsg : AdapterCall → String
  | .gemini .. => "Gemini not available"
  | .openai .. => "OpenAI not available"
  | .anthropic .. => "Anthropic not available"
  | .euri .. => "EURI not available"
  | .groq .. => "Groq not available"
  | .deepseek .. => "DeepSeek not available"

/-- Run one `complete_with_*` adapter: raise if the client is missing, else
perform the external call and assemble the result dict. -/
def runAdapter (env : Env) (c : AdapterCall) : Except String ProviderResult :=
  if clientAvailable env c then
    match env.invoke c with
    | .ok o =>
      .ok { text := o.text, model := modelName env c,
            tokens := o.tokens, processing_time_ms := o.processing_time_ms }
    | .error e => .error e
  else .error (adapterUnavailableMsg c)

/-- The routing block of `complete`: build the ordered `providers` list of
(display name, adapter call) pairs for the request, keeping only configured
clients, exactly mirroring the four task-type branches of the source. -/
def buildProviders (env : Env) (r : LLMRequest) : List (String × AdapterCall) :=
  if r.task_type = "intent" then
    (if env.euri_client then [("EURI", .euri r.prompt r.max_tokens r.temperature)] else []) ++
    (if env.groq_client then [("Groq", .groq r.prompt r.max_tokens r.temperature "llama-3.1-8b-instant")] else []) ++
    (if env.gemini_client then [("Gemini Flash", .gemini r.prompt r.max_tokens r.temperature)] else []) ++
    (if env.openai_client then [("GPT-4o-mini", .openai r.prompt r.max_tokens r.temperature "gpt-4o-mini")] else [])
  else if r.task_type = "code_gen" then
    (if env.euri_client then [("EURI", .euri r.prompt r.max_tokens r.temperature)] else []) ++
    (if env.openai_client then [("GPT-4o", .openai r.prompt r.max_tokens r.temperature "gpt-4o")] else []) ++
    (if env.groq_client then [("Groq", .groq r.prompt r.max_tokens r.temperature "llama-3.3-70b-versatile")] else []) ++
    (if env.gemini_client then [("Gemini Pro", .gemini r.prompt r.max_tokens r.temperature)] else [])
  else if r.task_type = "summarization" ∨ r.task_type = "extraction" then
    (if env.euri_client then [("EURI", .euri r.prompt r.max_tokens r.temperature)] else []) ++
    (if env.gemini_client then [("Gemini Pro", .gemini r.prompt r.max_tokens r.temperature)] else []) ++
    (if env.groq_client then [("Groq", .groq r.prompt r.max_tokens r.temperature "llama-3.3-70b-versatile")] else []) ++
    (if env.openai_client then [("GPT-4o", .openai r.prompt r.max_tokens r.temperature "gpt-4o")] else []) ++
    (if env.anthropic_client then [("Claude Haiku", .anthropic r.prompt r.max_tokens r.temperature)] else [])
  else
    (if env.euri_client then [("EURI", .euri r.prompt r.max_tokens r.temperature)] else []) ++
    (if env.deepseek_client then [("DeepSeek", .deepseek r.prompt r.max_tokens r.temperature "deepseek-chat")] else []) ++
    (if env.gemini_client then [("Gemini Flash", .gemini r.prompt r.max_tokens r.temperature)] else []) ++
    (if env.openai_client then [("GPT-4o-mini", .openai r.prompt r.max_tokens r.temperature "gpt-4o-mini")] else []) ++
    (if env.groq_client then [("Groq", .groq r.prompt r.max_tokens r.temperature "llama-3.1-8b-instant")] else []) ++
    (if env.anthropic_client then [("Claude Haiku", .anthropic r.prompt r.max_tokens r.temperature)] else [])

/-- The process-scoped mutable state `complete` touches: the module-level
`cache` dict and the `token_tracker`. -/
structure SvcState where
  cache : Cache
  tracker : TokenTracker.SessionStats
deriving DecidableEq

/-- The failure surfaced by `complete`: the 503 `HTTPException` whose
detail references `str(last_error)` (`none` models Python `None`, i.e. an
empty providers list exhausted without any attempt). -/
inductive CompleteErr where
  | allProvidersFailed (lastError : Option String)
deriving DecidableEq

/-- The provider loop of `complete` (`for i, (provider_name, provider_func)
in enumerate(providers)`): on success track usage, build and cache the
response; on failure record the error and continue; when exhausted raise
the aggregated 503.  Also returns the final state and the trace of adapter
calls actually invoked. -/
def tryProviders (env : Env) (optimized_prompt cache_key : String) (now : ℚ) :
    List (String × AdapterCall) → Nat → Option String → SvcState →
    Except CompleteErr LLMResponse × SvcState × List AdapterCall
  | [], _, last_error, st => (.error (.allProvidersFailed last_error), st, [])
  | (_, call) :: rest, i, _last_error, st =>
    match runAdapter env call with
    | .ok result =>
      let fallback_used := decide (0 < i)
      let input_tokens := PromptOptimizer.estimate_tokens optimized_prompt
      let output_tokens :=
        if input_tokens < result.tokens then result.tokens - input_tokens
        else (pySplit result.text).length
      let tracker2 := (TokenTracker.track st.tracker result.model input_tokens output_tokens).1
      let response : LLMResponse :=
        { text := result.text, model_used := result.model, tokens_used := result.tokens,
          processing_time_ms := result.processing_time_ms, fallback_used := fallback_used }
      (.ok response,
       { cache := save_to_cache cache_key response now st.cache, tracker := tracker2 },
       [call])
    | .error e =>
      let next := tryProviders env optimized_prompt cache_key now rest (i + 1) (some e) st
      (next.1, next.2.1, call :: next.2.2)

/-- The `/complete` endpoint body at wall-clock time `now`: optimize the
prompt, check the cache (expiry may mutate it), and on a miss run the
provider fallback loop.  Returns the response or error, the new process
state, and the trace of adapter calls performed. -/
def complete (env : Env) (now : ℚ) (request : LLMRequest) (st : SvcState) :
    Except CompleteErr LLMResponse × SvcState × List AdapterCall :=
  let optimized_prompt := PromptOptimizer.optimize_prompt request.prompt
  let cache_key := get_cache_key optimized_prompt request.task_type
  match get_from_cache now cache_key st.cache with
  | (some cached, cache2) => (.ok cached, { st with cache := cache2 }, [])
  | (none, cache2) =>
    tryProviders env optimized_prompt cache_key now (buildProviders env request) 0 none
      { st with cache := cache2 }

/-- No character of the list is an ASCII upper-case letter. -/
def hasNoUpper (l : List Char) : Prop := ∀ a ∈ l, ¬(65 ≤ a.toNat ∧ a.toNat ≤ 90)

def goodArgs (r : LLMRequest) (p : String × AdapterCall) : Prop :=
  p.2.promptArg = r.prompt ∧ p.2.maxTokensArg = r.max_tokens ∧
    p.2.temperatureArg = r.temperature

namespace TokenTracker

/-- Sequences of tracker operations. -/
inductive TrackerOp where
  | trackOp (provider : String) (input output : Nat)
  | resetOp

/-- Apply one operation to the tracker state. -/
def applyOp (s : SessionStats) : TrackerOp → SessionStats
  | .trackOp p i o => (track s p i o).1
  | .resetOp => reset

/-- Run a sequence of operations on a freshly constructed tracker. -/
def applyOps (ops : List TrackerOp) : SessionStats :=
  ops.foldl applyOp reset

/-- The global ledger equals the column-wise sums of the per-provider
breakdown. -/
def ledgerConsistent (s : SessionStats) : Prop :=
  s.total_input_tokens = (s.by_provider.map (fun e => e.2.input_tokens)).sum ∧
  s.total_output_tokens = (s.by_provider.map (fun e => e.2.output_tokens)).sum ∧
  s.total_cost = (s.by_provider.map (fun e => e.2.cost)).sum ∧
  s.requests = (s.by_provider.map (fun e => e.2.requests)).sum

end TokenTracker

/-- Concrete environment for the C1 scenario: three configured clients for
the `code_gen` route; the first adapter fails, the second succeeds. -/
def wEnvC1 : Env :=
  { euri_client := true, deepseek_client := false, gemini_client := false,
    openai_client := true, groq_client := true, anthropic_client := false,
    euri_model := "m",
    invoke := fun c =>
      match c with
      | .euri .. => .error "quota"
      | .openai .. => .ok ⟨"hello", 3, 9⟩
      | _ => .error "x" }

/-- Concrete request shared by several scenario instantiations. -/
def wReq (task : String) : LLMRequest := ⟨"hi", task, 10, 1⟩

/-- Fresh process state. -/
def wSt0 : SvcState := ⟨[], TokenTracker.reset⟩

/-- Concrete environment for the exhaustion / C2 scenario: one configured
client whose call always fails. -/
def wEnvC2 : Env :=
  { euri_client := true, deepseek_client := false, gemini_client := false,
    openai_client := false, groq_client := false, anthropic_client := false,
    euri_model := "m",
    invoke := fun _ => .error "boom" }

/-- Concrete environment with no configured clients at all. -/
def wEnvNone : Env :=
  { euri_client := false, deepseek_client := false, gemini_client := false,
    openai_client := false, groq_client := false, anthropic_client := false,
    euri_model := "m",
    invoke := fun _ => .error "never" }

/-- Concrete environment whose single provider succeeds. -/
def wEnvOk : Env :=
  { euri_client := true, deepseek_client := false, gemini_client := false,
    openai_client := false, groq_client := false, anthropic_client := false,
    euri_model := "m",
    invoke := fun _ => .ok ⟨"ok", 7, 5⟩ }

/-- Concrete stored response for the cache TTL instantiation. -/
def wResp : LLMResponse := ⟨"ok", "euri-m", 7, 5, false⟩

/-! Helper lemmas. -/

theorem charOfNat_toNat (m : Nat) (h : Nat.isValidChar m) : (Char.ofNat m).toNat = m := by
  simp only [Char.ofNat, dif_pos h, Char.ofNatAux, Char.toNat]
  rfl

theorem toLower_toNat_not_upper (c : Char) :
    ¬(65 ≤ (Char.toLower c).toNat ∧ (Char.toLower c).toNat ≤ 90) := by
  unfold Char.toLower
  by_cases h : c.toNat ≥ 65 ∧ c.toNat ≤ 90
  · rw [if_pos h, charOfNat_toNat]
    · omega
    · left; omega
  · rw [if_neg h]
    omega

theorem mem_replaceAllFuel {a : Char} {pat rep : List Char} :
    ∀ {fuel : Nat} {s : List Char}, a ∈ replaceAllFuel pat rep fuel s → a ∈ rep ∨ a ∈ s := by
  intro fuel
  induction fuel with
  | zero => intro s h; exact Or.inr h
  | succ n ih =>
    intro s h
    match s with
    | [] => simp [replaceAllFuel] at h
    | c :: cs =>
      rw [replaceAllFuel] at h
      split at h
      · rcases List.mem_append.mp h with h1 | h1
        · exact Or.inl h1
        · rcases ih h1 with h2 | h2
          · exact Or.inl h2
          · exact Or.inr (List.drop_subset _ _ h2)
      · rcases List.mem_cons.mp h with h1 | h1
        · exact Or.inr (h1 ▸ List.mem_cons_self _ _)
        · rcases ih h1 with h2 | h2
          · exact Or.inl h2
          · exact Or.inr (List.mem_cons_of_mem _ h2)

theorem isPrefixOf_subset {l1 l2 : List Char} (h : l1.isPrefixOf l2 = true) :
    ∀ a ∈ l1, a ∈ l2 := by
  induction l1 generalizing l2 with
  | nil => intro a ha; simp at ha
  | cons c cs ih =>
    match l2 with
    | [] => simp [List.isPrefixOf] at h
    | d :: ds =>
      simp only [List.isPrefixOf, Bool.and_eq_true, beq_iff_eq] at h
      intro a ha
      rcases List.mem_cons.mp ha with rfl | ha
      · exact h.1 ▸ List.mem_cons_self _ _
      · exact List.mem_cons_of_mem _ (ih h.2 a ha)

theorem containsSub_subset {pat s : List Char} (h : containsSub pat s = true) :
    ∀ a ∈ pat, a ∈ s := by
  induction s with
  | nil =>
    intro a ha
    simp only [containsSub, List.isEmpty_iff] at h
    subst h; simp at ha
  | cons c cs ih =>
    simp only [containsSub, Bool.or_eq_true] at h
    intro a ha
    rcases h with h | h
    · exact isPrefixOf_subset h a ha
    · exact List.mem_cons_of_mem _ (ih h a ha)

theorem mem_collapseRunsFuel {a ch : Char} {minRun keep : Nat} :
    ∀ {fuel : Nat} {s : List Char}, a ∈ collapseRunsFuel ch minRun keep fuel s → a ∈ s := by
  intro fuel
  induction fuel with
  | zero => intro s h; exact h
  | succ n ih =>
    intro s h
    match s with
    | [] => simp [collapseRunsFuel] at h
    | c :: cs =>
      rw [collapseRunsFuel] at h
      split at h
      · rcases List.mem_append.mp h with h1 | h1
        · have ha : a = ch := by
            split at h1 <;> exact List.eq_of_mem_replicate h1
          rename_i hc
          rw [ha, show c = ch from beq_iff_eq.mp hc]
          exact List.mem_cons_self _ _
        · exact List.mem_cons_of_mem _ (List.dropWhile_sublist _ |>.subset (ih h1))
      · rcases List.mem_cons.mp h with rfl | h1
        · exact List.mem_cons_self _ _
        · exact List.mem_cons_of_mem _ (ih h1)

theorem mem_pyStrip {a : Char} {s : List Char} (h : a ∈ pyStrip s) : a ∈ s := by
  unfold pyStrip at h
  rw [List.mem_reverse] at h
  have h1 := (List.dropWhile_sublist _ |>.subset h)
  rw [List.mem_reverse] at h1
  exact List.dropWhile_sublist _ |>.subset h1

theorem hasNoUpper_strLower (s : String) : hasNoUpper (strLower s).data := by
  intro a ha
  simp only [strLower] at ha
  rcases List.mem_map.mp ha with ⟨b, -, rfl⟩
  exact toLower_toNat_not_upper b

theorem hasNoUpper_strReplace_of (s pat rep : String)
    (hs : hasNoUpper s.data) (hr : hasNoUpper rep.data) :
    hasNoUpper (strReplace s pat rep).data := by
  intro a ha
  simp only [strReplace] at ha
  rcases mem_replaceAllFuel ha with h | h
  · exact hr a h
  · exact hs a h

theorem hasNoUpper_applyReplacements (s : String) :
    hasNoUpper (PromptOptimizer.applyReplacements s).data := by
  simp only [PromptOptimizer.applyReplacements, PromptOptimizer.REPLACEMENTS, List.foldl]
  exact hasNoUpper_strReplace_of _ _ _ (hasNoUpper_strLower _) (by unfold hasNoUpper; decide)

theorem hasNoUpper_collapseWhitespace (s : String)
    (h : hasNoUpper s.data) : hasNoUpper (PromptOptimizer.collapseWhitespace s).data := by
  intro a ha
  simp only [PromptOptimizer.collapseWhitespace] at ha
  exact h a (mem_collapseRunsFuel (mem_collapseRunsFuel (mem_pyStrip ha)))

theorem strContains_marker_false (s : String) (pat : String) (hnu : hasNoUpper s.data)
    (c : Char) (hc : c ∈ pat.data) (h65 : 65 ≤ c.toNat) (h90 : c.toNat ≤ 90) :
    strContains s pat = false := by
  by_contra h
  rw [Bool.not_eq_false] at h
  exact hnu c (containsSub_subset h c hc) ⟨h65, h90⟩

theorem truncateContext_skipped (b : Nat) (s : String) (hnu : hasNoUpper s.data) :
    PromptOptimizer.truncateContext b s = s := by
  unfold PromptOptimizer.truncateContext
  rw [strContains_marker_false s "CONTEXT:" hnu (Char.ofNat 67) (by decide) (by decide) (by decide),
      strContains_marker_false s "TRANSCRIPT:" hnu (Char.ofNat 84) (by decide) (by decide) (by decide)]
  simp

theorem replaceAllFuel_id {pat rep : List Char} :
    ∀ {fuel : Nat} {s : List Char}, (∃ x ∈ pat, x ∉ s) → replaceAllFuel pat rep fuel s = s := by
  intro fuel
  induction fuel with
  | zero => intro s _; rfl
  | succ n ih =>
    intro s hx
    match s with
    | [] => rfl
    | c :: cs =>
      rcases hx with ⟨x, hxp, hxs⟩
      rw [replaceAllFuel]
      split
      · rename_i hpre
        exact absurd (isPrefixOf_subset hpre x hxp) hxs
      · rw [ih ⟨x, hxp, fun h => hxs (List.mem_cons_of_mem _ h)⟩]

theorem strReplace_id (s pat rep : String)
    (hp : ∃ x ∈ pat.data, x.isLower = true)
    (hs : ∀ c ∈ s.data, c.isLower = false) : strReplace s pat rep = s := by
  rcases hp with ⟨x, hxp, hxl⟩
  unfold strReplace
  rw [replaceAllFuel_id ⟨x, hxp, fun h => by rw [hs x h] at hxl; cases hxl⟩]
  exact String.asString_toList s

theorem removeFillers_id (s : String) (hs : ∀ c ∈ s.data, c.isLower = false) :
    PromptOptimizer.removeFillers s = s := by
  unfold PromptOptimizer.removeFillers
  have aux : ∀ (l : List String),
      (∀ f ∈ l, (∃ x ∈ f.data, x.isLower = true) ∧ (∃ x ∈ (pyCapitalize f).data, x.isLower = true)) →
      List.foldl (fun acc f => strReplace (strReplace acc f "") (pyCapitalize f) "") s l = s := by
    intro l
    induction l with
    | nil => intro _; rfl
    | cons f fs ih =>
      intro hl
      rcases hl f (List.mem_cons_self _ _) with ⟨h1, h2⟩
      simp only [List.foldl, strReplace_id s f "" h1 hs,
        strReplace_id s (pyCapitalize f) "" h2 hs]
      exact ih fun g hg => hl g (List.mem_cons_of_mem _ hg)
  exact aux PromptOptimizer.FILLER_PHRASES (by decide)

theorem lookup_cacheErase (key : String) (c : Cache) :
    List.lookup key (cacheErase key c) = none := by
  induction c with
  | nil => rfl
  | cons e es ih =>
    rcases e with ⟨k, v⟩
    by_cases h : k = key
    · have hb : (!(((k, v) : String × ℚ × LLMResponse).1 == key)) = false := by simp [h]
      simp only [cacheErase, List.filter_cons, hb, Bool.false_eq_true, if_false]
      exact ih
    · have hb : (!(((k, v) : String × ℚ × LLMResponse).1 == key)) = true := by simp [h]
      simp only [cacheErase, List.filter_cons, hb, if_true]
      simp only [List.lookup, show (key == k) = false from beq_eq_false_iff_ne.mpr (Ne.symm h)]
      exact ih

theorem get_from_cache_fresh (c : Cache) (key : String) (resp : LLMResponse) (t tq : ℚ)
    (h : tq - t < 3600) :
    get_from_cache tq key (save_to_cache key resp t c) = (some resp, save_to_cache key resp t c) := by
  simp [get_from_cache, save_to_cache, List.lookup, h]

theorem get_from_cache_expired (c : Cache) (key : String) (resp : LLMResponse) (t tq : ℚ)
    (h : 3600 ≤ tq - t) :
    get_from_cache tq key (save_to_cache key resp t c) =
      (none, cacheErase key (save_to_cache key resp t c)) := by
  simp [get_from_cache, save_to_cache, List.lookup, not_lt.mpr h]

namespace TokenTracker

theorem providerKey_claude (p : String) (h : firstDashSegment p = "claude") :
    providerKey p = "anthropic" := by
  unfold providerKey
  rw [h]
  decide

theorem pricingFor_anthropic : pricingFor "anthropic" = (0.80, 4.00) := rfl

theorem track_claude (st : SessionStats) (p : String) (i o : Nat)
    (h : firstDashSegment p = "claude") :
    (track st p i o).2.provider = "anthropic" ∧
    (track st p i o).2.cost = (i : ℚ) / 1000000 * 0.80 + (o : ℚ) / 1000000 * 4.00 := by
  unfold track
  rw [providerKey_claude p h]
  exact ⟨rfl, rfl⟩

theorem bumpProvider_sum_input (key : String) (it ot : Nat) (c : ℚ)
    (l : List (String × ProviderStats)) :
    ((bumpProvider key it ot c l).map (fun e => e.2.input_tokens)).sum
      = (l.map (fun e => e.2.input_tokens)).sum + it := by
  induction l with
  | nil => simp [bumpProvider]
  | cons e es ih =>
    rcases e with ⟨k, v⟩
    by_cases h : k = key
    · simp only [bumpProvider, if_pos h, List.map_cons, List.sum_cons]
      omega
    · simp only [bumpProvider, if_neg h, List.map_cons, List.sum_cons, ih]
      omega

theorem bumpProvider_sum_output (key : String) (it ot : Nat) (c : ℚ)
    (l : List (String × ProviderStats)) :
    ((bumpProvider key it ot c l).map (fun e => e.2.output_tokens)).sum
      = (l.map (fun e => e.2.output_tokens)).sum + ot := by
  induction l with
  | nil => simp [bumpProvider]
  | cons e es ih =>
    rcases e with ⟨k, v⟩
    by_cases h : k = key
    · simp only [bumpProvider, if_pos h, List.map_cons, List.sum_cons]
      omega
    · simp only [bumpProvider, if_neg h, List.map_cons, List.sum_cons, ih]
      omega

theorem bumpProvider_sum_cost (key : String) (it ot : Nat) (c : ℚ)
    (l : List (String × ProviderStats)) :
    ((bumpProvider key it ot c l).map (fun e => e.2.cost)).sum
      = (l.map (fun e => e.2.cost)).sum + c := by
  induction l with
  | nil => simp [bumpProvider]
  | cons e es ih =>
    rcases e with ⟨k, v⟩
    by_cases h : k = key
    · simp only [bumpProvider, if_pos h, List.map_cons, List.sum_cons]
      ring
    · simp only [bumpProvider, if_neg h, List.map_cons, List.sum_cons, ih]
      ring

theorem bumpProvider_sum_requests (key : String) (it ot : Nat) (c : ℚ)
    (l : List (String × ProviderStats)) :
    ((bumpProvider key it ot c l).map (fun e => e.2.requests)).sum
      = (l.map (fun e => e.2.requests)).sum + 1 := by
  induction l with
  | nil => simp [bumpProvider]
  | cons e es ih =>
    rcases e with ⟨k, v⟩
    by_cases h : k = key
    · simp only [bumpProvider, if_pos h, List.map_cons, List.sum_cons]
      omega
    · simp only [bumpProvider, if_neg h, List.map_cons, List.sum_cons, ih]
      omega

theorem ledgerConsistent_track (s : SessionStats) (hs : ledgerConsistent s)
    (p : String) (i o : Nat) : ledgerConsistent (track s p i o).1 := by
  rcases hs with ⟨h1, h2, h3, h4⟩
  unfold track ledgerConsistent
  refine ⟨?_, ?_, ?_, ?_⟩
  · simp only [bumpProvider_sum_input, h1]
  · simp only [bumpProvider_sum_output, h2]
  · simp only [bumpProvider_sum_cost, h3]
  · simp only [bumpProvider_sum_requests, h4]

theorem ledgerConsistent_reset : ledgerConsistent reset := by
  refine ⟨rfl, rfl, rfl, rfl⟩

theorem ledgerConsistent_applyOps (ops : List TrackerOp) :
    ledgerConsistent (applyOps ops) := by
  unfold applyOps
  have aux : ∀ (l : List TrackerOp) (s : SessionStats), ledgerConsistent s →
      ledgerConsistent (l.foldl applyOp s) := by
    intro l
    induction l with
    | nil => intro s hs; exact hs
    | cons op ops ih =>
      intro s hs
      apply ih
      cases op with
      | trackOp p i o => exact ledgerConsistent_track s hs p i o
      | resetOp => exact ledgerConsistent_reset
  exact aux ops reset ledgerConsistent_reset

end TokenTracker

theorem runAdapter_ok_model (env : Env) (c : AdapterCall) (r : ProviderResult)
    (h : runAdapter env c = .ok r) : r.model = modelName env c := by
  unfold runAdapter at h
  split at h
  · cases hi : env.invoke c with
    | ok o =>
      rw [hi] at h
      injection h with h2
      rw [← h2]
    | error e =>
      rw [hi] at h
      cases h
  · cases h

theorem buildProviders_args (env : Env) (r : LLMRequest) :
    ∀ p ∈ buildProviders env r, goodArgs r p := by
  intro p hp
  unfold buildProviders at hp
  repeat'
    first
      | exact absurd hp (List.not_mem_nil p)
      | (obtain rfl := List.mem_singleton.mp hp; exact ⟨rfl, rfl, rfl⟩)
      | (rcases List.mem_append.mp hp with hp | hp)
      | (split at hp)

theorem tryProviders_trace_from (env : Env) (op ck : String) (now : ℚ) :
    ∀ (ps : List (String × AdapterCall)) (i : Nat) (le : Option String) (st : SvcState)
      (c : AdapterCall), c ∈ (tryProviders env op ck now ps i le st).2.2 →
      ∃ p ∈ ps, p.2 = c := by
  intro ps
  induction ps with
  | nil =>
    intro i le st c hc
    simp [tryProviders] at hc
  | cons p rest ih =>
    intro i le st c hc
    rcases p with ⟨name, call⟩
    rw [tryProviders] at hc
    cases hr : runAdapter env call with
    | error e =>
      rw [hr] at hc
      dsimp only at hc
      rcases List.mem_cons.mp hc with rfl | hc
      · exact ⟨(name, c), List.mem_cons_self _ _, rfl⟩
      · rcases ih (i + 1) (some e) st c hc with ⟨q, hq, hqc⟩
        exact ⟨q, List.mem_cons_of_mem _ hq, hqc⟩
    | ok result =>
      rw [hr] at hc
      dsimp only at hc
      rcases List.mem_singleton.mp hc with rfl
      exact ⟨(name, c), List.mem_cons_self _ _, rfl⟩

theorem tryProviders_ok_cache (env : Env) (op ck : String) (now : ℚ) :
    ∀ (ps : List (String × AdapterCall)) (i : Nat) (le : Option String) (st : SvcState)
      (resp : LLMResponse), (tryProviders env op ck now ps i le st).1 = .ok resp →
      (tryProviders env op ck now ps i le st).2.1.cache = save_to_cache ck resp now st.cache := by
  intro ps
  induction ps with
  | nil =>
    intro i le st resp h
    simp [tryProviders] at h
  | cons p rest ih =>
    intro i le st resp h
    rcases p with ⟨name, call⟩
    rw [tryProviders] at h ⊢
    cases hr : runAdapter env call with
    | error e =>
      rw [hr] at h
      exact ih (i + 1) (some e) st resp h
    | ok result =>
      rw [hr] at h
      dsimp only at h ⊢
      injection h with h2
      rw [← h2]

theorem tryProviders_all_fail (env : Env) (op ck : String) (now : ℚ) :
    ∀ (ps : List (String × AdapterCall)) (i : Nat) (le : Option String) (st : SvcState),
      (∀ p ∈ ps, ∃ e, runAdapter env p.2 = .error e) →
      (ps = [] → tryProviders env op ck now ps i le st = (.error (.allProvidersFailed le), st, [])) ∧
      (∀ lastp, ps.getLast? = some lastp →
        ∃ e, runAdapter env lastp.2 = .error e ∧
          tryProviders env op ck now ps i le st =
            (.error (.allProvidersFailed (some e)), st, ps.map (fun p => p.2))) := by
  intro ps
  induction ps with
  | nil =>
    intro i le st _
    exact ⟨fun _ => rfl, fun lastp h => by simp at h⟩
  | cons p rest ih =>
    intro i le st hfail
    rcases p with ⟨name, call⟩
    rcases hfail (name, call) (List.mem_cons_self _ _) with ⟨e, he⟩
    have hrest : ∀ q ∈ rest, ∃ e2, runAdapter env q.2 = .error e2 :=
      fun q hq => hfail q (List.mem_cons_of_mem _ hq)
    refine ⟨fun h => absurd h (List.cons_ne_nil _ _), ?_⟩
    intro lastp hlast
    match rest with
    | [] =>
      rw [List.getLast?_singleton] at hlast
      obtain rfl : (name, call) = lastp := Option.some.inj hlast
      refine ⟨e, he, ?_⟩
      rw [tryProviders, he]
      rfl
    | q :: qs =>
      rw [List.getLast?_cons_cons] at hlast
      rcases (ih (i + 1) (some e) st hrest).2 lastp hlast with ⟨e2, he2, heq⟩
      refine ⟨e2, he2, ?_⟩
      rw [tryProviders, he]
      dsimp only
      rw [heq]
      rfl

theorem complete_miss (env : Env) (now : ℚ) (req : LLMRequest) (st : SvcState)
    (hmiss : (get_from_cache now
        (get_cache_key (PromptOptimizer.optimize_prompt req.prompt) req.task_type) st.cache).1
      = none) :
    complete env now req st =
      tryProviders env (PromptOptimizer.optimize_prompt req.prompt)
        (get_cache_key (PromptOptimizer.optimize_prompt req.prompt) req.task_type) now
        (buildProviders env req) 0 none
        ⟨(get_from_cache now
            (get_cache_key (PromptOptimizer.optimize_prompt req.prompt) req.task_type) st.cache).2,
          st.tracker⟩ := by
  have hgc : get_from_cache now
      (get_cache_key (PromptOptimizer.optimize_prompt req.prompt) req.task_type) st.cache
      = (none, (get_from_cache now
          (get_cache_key (PromptOptimizer.optimize_prompt req.prompt) req.task_type) st.cache).2) := by
    exact Prod.ext hmiss rfl
  simp only [complete]
  rw [hgc]

theorem complete_hit (env : Env) (now : ℚ) (req : LLMRequest) (st : SvcState) (resp : LLMResponse)
    (hhit : (get_from_cache now
        (get_cache_key (PromptOptimizer.optimize_prompt req.prompt) req.task_type) st.cache).1
      = some resp) :
    complete env now req st =
      (.ok resp,
       ⟨(get_from_cache now
          (get_cache_key (PromptOptimizer.optimize_prompt req.prompt) req.task_type) st.cache).2,
         st.tracker⟩, []) := by
  have hgc : get_from_cache now
      (get_cache_key (PromptOptimizer.optimize_prompt req.prompt) req.task_type) st.cache
      = (some resp, (get_from_cache now
          (get_cache_key (PromptOptimizer.optimize_prompt req.prompt) req.task_type) st.cache).2) :=
    Prod.ext hhit rfl
  simp only [complete]
  rw [hgc]

/-! Claim theorems and their witnesses. -/

/-- C1: on a cache miss with resolved routing list [A, B, C], if adapter A
fails and adapter B succeeds, `complete` returns the result produced by B
(`model_used` is the id B reports) with `fallback_used = true`, and the
invocation trace is exactly [A, B] — adapter C is never invoked. -/
theorem C1_fallback_second_provider (env : Env) (now : ℚ) (req : LLMRequest) (st : SvcState)
    (A B C : String × AdapterCall) (eA : String) (rB : ProviderResult)
    (hmiss : (get_from_cache now
        (get_cache_key (PromptOptimizer.optimize_prompt req.prompt) req.task_type) st.cache).1
      = none)
    (hps : buildProviders env req = [A, B, C])
    (hA : runAdapter env A.2 = .error eA)
    (hB : runAdapter env B.2 = .ok rB)
    (hCA : C.2 ≠ A.2) (hCB : C.2 ≠ B.2) :
    ∃ st2 : SvcState,
      complete env now req st =
        (.ok { text := rB.text, model_used := rB.model, tokens_used := rB.tokens,
               processing_time_ms := rB.processing_time_ms, fallback_used := true },
         st2, [A.2, B.2]) ∧
      rB.model = modelName env B.2 ∧
      C.2 ∉ (complete env now req st).2.2 := by
  have hmodel := runAdapter_ok_model env B.2 rB hB
  rw [complete_miss env now req st hmiss, hps]
  rcases A with ⟨nA, cA⟩
  rcases B with ⟨nB, cB⟩
  rcases C with ⟨nC, cC⟩
  rw [tryProviders, hA]
  dsimp only
  rw [tryProviders, hB]
  dsimp only
  refine ⟨_, rfl, hmodel, ?_⟩
  simp only [List.mem_cons, List.mem_singleton]
  rintro (h | h | h)
  · exact hCA h
  · exact hCB h
  · simp at h

theorem C1_fallback_second_provider_witness :
    ∃ st2 : SvcState,
      complete wEnvC1 0 (wReq "code_gen") wSt0 =
        (.ok { text := "hello", model_used := "gpt-4o", tokens_used := 3,
               processing_time_ms := 9, fallback_used := true },
         st2, [.euri "hi" 10 1, .openai "hi" 10 1 "gpt-4o"]) ∧
      "gpt-4o" = modelName wEnvC1 (.openai "hi" 10 1 "gpt-4o") ∧
      (AdapterCall.groq "hi" 10 1 "llama-3.3-70b-versatile")
        ∉ (complete wEnvC1 0 (wReq "code_gen") wSt0).2.2 :=
  C1_fallback_second_provider wEnvC1 0 (wReq "code_gen") wSt0
    ("EURI", .euri "hi" 10 1) ("GPT-4o", .openai "hi" 10 1 "gpt-4o")
    ("Groq", .groq "hi" 10 1 "llama-3.3-70b-versatile") "quota" ⟨"hello", "gpt-4o", 3, 9⟩
    rfl rfl rfl rfl (by decide) (by decide)

/-- C2: on a cache miss with a non-empty resolved routing list in which
every candidate fails, `complete` fails with the aggregated 503 carrying
the last candidate error, and the Usage Ledger is exactly unchanged. -/
theorem C2_exhaustion_ledger_unchanged (env : Env) (now : ℚ) (req : LLMRequest) (st : SvcState)
    (hmiss : (get_from_cache now
        (get_cache_key (PromptOptimizer.optimize_prompt req.prompt) req.task_type) st.cache).1
      = none)
    (hne : buildProviders env req ≠ [])
    (hfail : ∀ p ∈ buildProviders env req, ∃ e, runAdapter env p.2 = .error e) :
    ∃ lastp e,
      (buildProviders env req).getLast? = some lastp ∧
      runAdapter env lastp.2 = .error e ∧
      (complete env now req st).1 = .error (.allProvidersFailed (some e)) ∧
      (complete env now req st).2.1.tracker = st.tracker := by
  rw [complete_miss env now req st hmiss]
  cases hl : (buildProviders env req).getLast? with
  | none => exact absurd (List.getLast?_eq_none_iff.mp hl) hne
  | some lastp =>
    rcases (tryProviders_all_fail env (PromptOptimizer.optimize_prompt req.prompt)
        (get_cache_key (PromptOptimizer.optimize_prompt req.prompt) req.task_type) now
        (buildProviders env req) 0 none
        ⟨(get_from_cache now
            (get_cache_key (PromptOptimizer.optimize_prompt req.prompt) req.task_type) st.cache).2,
          st.tracker⟩ hfail).2 lastp hl with ⟨e, he, heq⟩
    refine ⟨lastp, e, rfl, he, ?_, ?_⟩ <;> rw [heq]

theorem C2_exhaustion_ledger_unchanged_witness :
    ∃ lastp e,
      (buildProviders wEnvC2 (wReq "intent")).getLast? = some lastp ∧
      runAdapter wEnvC2 lastp.2 = .error e ∧
      (complete wEnvC2 0 (wReq "intent") wSt0).1 = .error (.allProvidersFailed (some e)) ∧
      (complete wEnvC2 0 (wReq "intent") wSt0).2.1.tracker = wSt0.tracker :=
  C2_exhaustion_ledger_unchanged wEnvC2 0 (wReq "intent") wSt0 rfl (by decide)
    (by
      intro p hp
      have hps : buildProviders wEnvC2 (wReq "intent") = [("EURI", .euri "hi" 10 1)] := rfl
      rw [hps] at hp
      obtain rfl := List.mem_singleton.mp hp
      exact ⟨"boom", rfl⟩)

theorem C3_counterexample_empty_providers :
    complete wEnvNone 0 (wReq "intent") wSt0 =
      (.error (.allProvidersFailed none), ⟨[], TokenTracker.reset⟩, []) := rfl

/-- C3 (amended): on a cache miss with an empty resolved provider list,
`complete` fails immediately — with no adapter invoked and the tracker
untouched — but via the same `AllProvidersFailed` 503 (last error `None`),
not a distinct NoProvidersAvailable error. -/
theorem C3_amended_empty_providers (env : Env) (now : ℚ) (req : LLMRequest) (st : SvcState)
    (hmiss : (get_from_cache now
        (get_cache_key (PromptOptimizer.optimize_prompt req.prompt) req.task_type) st.cache).1
      = none)
    (hps : buildProviders env req = []) :
    complete env now req st =
      (.error (.allProvidersFailed none),
       ⟨(get_from_cache now
          (get_cache_key (PromptOptimizer.optimize_prompt req.prompt) req.task_type) st.cache).2,
         st.tracker⟩, []) := by
  rw [complete_miss env now req st hmiss, hps, tryProviders]

theorem C3_amended_empty_providers_witness :
    complete wEnvNone 0 (wReq "intent") wSt0 =
      (.error (.allProvidersFailed none),
       ⟨(get_from_cache 0
          (get_cache_key (PromptOptimizer.optimize_prompt (wReq "intent").prompt)
            (wReq "intent").task_type) wSt0.cache).2,
         wSt0.tracker⟩, []) :=
  C3_amended_empty_providers wEnvNone 0 (wReq "intent") wSt0 rfl rfl

/-- C4: a cache-missing `complete` that succeeds at time t1, re-issued as
the identical request at any t2 with t2 - t1 < 3600, returns the identical
(byte-identical text) response from the cache, invokes no adapter, and
leaves the whole service state (cache and Usage Ledger) unchanged. -/
theorem C4_cache_idempotence (env : Env) (req : LLMRequest) (st : SvcState) (t1 t2 : ℚ)
    (resp1 : LLMResponse)
    (hmiss : (get_from_cache t1
        (get_cache_key (PromptOptimizer.optimize_prompt req.prompt) req.task_type) st.cache).1
      = none)
    (h1 : (complete env t1 req st).1 = .ok resp1)
    (ht : t2 - t1 < 3600) :
    complete env t2 req (complete env t1 req st).2.1 =
      (.ok resp1, (complete env t1 req st).2.1, []) := by
  have hkey := complete_miss env t1 req st hmiss
  have hcache : (complete env t1 req st).2.1.cache
      = save_to_cache (get_cache_key (PromptOptimizer.optimize_prompt req.prompt) req.task_type)
          resp1 t1
          (get_from_cache t1
            (get_cache_key (PromptOptimizer.optimize_prompt req.prompt) req.task_type) st.cache).2 := by
    rw [hkey] at h1 ⊢
    exact tryProviders_ok_cache env _ _ t1 _ 0 none _ resp1 h1
  have hhit : get_from_cache t2
      (get_cache_key (PromptOptimizer.optimize_prompt req.prompt) req.task_type)
      ((complete env t1 req st).2.1).cache
      = (some resp1, ((complete env t1 req st).2.1).cache) := by
    rw [hcache]
    exact get_from_cache_fresh _ _ _ _ _ ht
  rw [complete_hit env t2 req _ resp1 (by rw [hhit])]
  rw [hhit]

theorem C4_cache_idempotence_witness :
    complete wEnvOk 5 (wReq "intent") (complete wEnvOk 0 (wReq "intent") wSt0).2.1 =
      (.ok ⟨"ok", "euri-m", 7, 5, false⟩, (complete wEnvOk 0 (wReq "intent") wSt0).2.1, []) :=
  C4_cache_idempotence wEnvOk (wReq "intent") wSt0 0 5 ⟨"ok", "euri-m", 7, 5, false⟩ rfl rfl (by norm_num)

/-- C5: a cache entry stored at time t is returned by any lookup strictly
before t + 3600 and is absent at or after t + 3600, where the expired
lookup also removes the entry (lazy eviction). -/
theorem C5_ttl_expiry (c : Cache) (key : String) (resp : LLMResponse) (t tq : ℚ) :
    (tq < t + 3600 →
      get_from_cache tq key (save_to_cache key resp t c) =
        (some resp, save_to_cache key resp t c)) ∧
    (t + 3600 ≤ tq →
      get_from_cache tq key (save_to_cache key resp t c) =
        (none, cacheErase key (save_to_cache key resp t c)) ∧
      List.lookup key (get_from_cache tq key (save_to_cache key resp t c)).2 = none) := by
  constructor
  · intro h
    exact get_from_cache_fresh c key resp t tq (by linarith)
  · intro h
    have h2 := get_from_cache_expired c key resp t tq (by linarith)
    refine ⟨h2, ?_⟩
    rw [h2]
    exact lookup_cacheErase key _

theorem C5_ttl_expiry_witness :
    (get_from_cache 10 "k" (save_to_cache "k" wResp 0 []) =
      (some wResp, save_to_cache "k" wResp 0 [])) ∧
    (get_from_cache 3600 "k" (save_to_cache "k" wResp 0 []) =
      (none, cacheErase "k" (save_to_cache "k" wResp 0 [])) ∧
     List.lookup "k" (get_from_cache 3600 "k" (save_to_cache "k" wResp 0 [])).2 = none) :=
  ⟨(C5_ttl_expiry [] "k" wResp 0 10).1 (by norm_num),
   (C5_ttl_expiry [] "k" wResp 0 3600).2 (by norm_num)⟩

/-- C6: every adapter call `complete` performs is invoked with the
request original (non-optimized) prompt, `max_tokens` and `temperature`. -/
theorem C6_original_prompt_args (env : Env) (now : ℚ) (req : LLMRequest) (st : SvcState) :
    ∀ call ∈ (complete env now req st).2.2,
      call.promptArg = req.prompt ∧ call.maxTokensArg = req.max_tokens ∧
      call.temperatureArg = req.temperature := by
  intro call hc
  cases hp1 : (get_from_cache now
      (get_cache_key (PromptOptimizer.optimize_prompt req.prompt) req.task_type) st.cache).1 with
  | some resp =>
    rw [complete_hit env now req st resp hp1] at hc
    simp at hc
  | none =>
    rw [complete_miss env now req st hp1] at hc
    rcases tryProviders_trace_from env _ _ now _ 0 none _ call hc with ⟨p, hp, hpc⟩
    rw [← hpc]
    exact buildProviders_args env req p hp

theorem C6_original_prompt_args_witness :
    (AdapterCall.euri "hi" 10 1).promptArg = (wReq "intent").prompt ∧
    (AdapterCall.euri "hi" 10 1).maxTokensArg = (wReq "intent").max_tokens ∧
    (AdapterCall.euri "hi" 10 1).temperatureArg = (wReq "intent").temperature :=
  C6_original_prompt_args wEnvOk 0 (wReq "intent") wSt0 (.euri "hi" 10 1)
    (by
      rw [show (complete wEnvOk 0 (wReq "intent") wSt0).2.2 = [.euri "hi" 10 1] from rfl]
      exact List.mem_singleton.mpr rfl)

/-- C7: the step-4 context truncation of `optimize_prompt` never fires:
after step 2 has lower-cased the whole prompt, the case-sensitive marker
guard fails for every input, so `truncateContext` is the identity on every
pipeline input, and `optimize_prompt` never truncates — demonstrated also
on a concrete over-budget CONTEXT prompt that comes back untruncated. -/
theorem C7_truncation_never_fires (p : String) (b : Nat) :
    PromptOptimizer.truncateContext b
        (PromptOptimizer.collapseWhitespace
          (PromptOptimizer.applyReplacements (PromptOptimizer.removeFillers p)))
      = PromptOptimizer.collapseWhitespace
          (PromptOptimizer.applyReplacements (PromptOptimizer.removeFillers p)) ∧
    PromptOptimizer.optimize_prompt p b =
      PromptOptimizer.dedupeInstructions
        (PromptOptimizer.collapseWhitespace
          (PromptOptimizer.applyReplacements (PromptOptimizer.removeFillers p))) ∧
    PromptOptimizer.optimize_prompt "Summarize. CONTEXT: a b c d e f g h i j k l" 2
      = "summarize. context: a b c d e f g h i j k l" := by
  have hskip := truncateContext_skipped b
    (PromptOptimizer.collapseWhitespace
      (PromptOptimizer.applyReplacements (PromptOptimizer.removeFillers p)))
    (hasNoUpper_collapseWhitespace _ (hasNoUpper_applyReplacements _))
  refine ⟨hskip, ?_, by decide⟩
  unfold PromptOptimizer.optimize_prompt
  rw [hskip]

/-- C8 counterexample: an all-uppercase occurrence of a filler phrase is
NOT stripped — `optimize_prompt "PLEASE help"` keeps the filler (merely
lower-cased by step 2) instead of producing `"help"`. -/
theorem C8_counterexample_uppercase_filler :
    PromptOptimizer.optimize_prompt "PLEASE help" = "please help" ∧
    PromptOptimizer.optimize_prompt "PLEASE help" ≠ "help" := by
  exact ⟨by decide, by decide⟩

/-- C8 (amended): step 1 strips a filler phrase only in the listed casing
and its `capitalize()` variant; any string with no lower-case letter (such
as an all-uppercase prompt) passes through step 1 unchanged. -/
theorem C8_amended_literal_casings :
    PromptOptimizer.removeFillers "please help" = "help" ∧
    PromptOptimizer.removeFillers "Please help" = "help" ∧
    ∀ s : String, (∀ c ∈ s.data, c.isLower = false) → PromptOptimizer.removeFillers s = s := by
  refine ⟨by decide, by decide, removeFillers_id⟩

theorem C8_amended_literal_casings_witness :
    PromptOptimizer.removeFillers "PLEASE HELP" = "PLEASE HELP" :=
  C8_amended_literal_casings.2.2 "PLEASE HELP" (by decide)

/-- C9 counterexample: the id "my-claude" contains "claude" but the family
resolution only inspects the first dash-segment, so `track` books it under
family "my" at the default rate 0.1/0.3 (cost 0.4 for a million tokens
each way) instead of the anthropic rate (which would cost 4.8). -/
theorem C9_counterexample_my_claude :
    (TokenTracker.track TokenTracker.reset "my-claude" 1000000 1000000).2.provider = "my" ∧
    (TokenTracker.track TokenTracker.reset "my-claude" 1000000 1000000).2.cost = 0.4 ∧
    (1000000 : ℚ) / 1000000 * 0.80 + (1000000 : ℚ) / 1000000 * 4.00 = 4.8 ∧
    (0.4 : ℚ) ≠ 4.8 := by
  have hk : TokenTracker.providerKey "my-claude" = "my" := by decide
  refine ⟨by decide, ?_, by norm_num, by norm_num⟩
  simp only [TokenTracker.track]
  rw [hk]
  show (1000000 : ℚ) / 1000000 * (TokenTracker.pricingFor "my").1
      + (1000000 : ℚ) / 1000000 * (TokenTracker.pricingFor "my").2 = 0.4
  rw [show TokenTracker.pricingFor "my" = (0.1, 0.3) from rfl]
  norm_num

/-- C9 (amended): provider ids whose first dash-segment (lower-cased) is
exactly "claude" — e.g. "claude-3-5-haiku" — are booked under family
"anthropic" at the anthropic rates 0.80/4.00 per million tokens. -/
theorem C9_amended_claude_first_segment (st : TokenTracker.SessionStats) (p : String) (i o : Nat)
    (h : TokenTracker.firstDashSegment p = "claude") :
    (TokenTracker.track st p i o).2.provider = "anthropic" ∧
    (TokenTracker.track st p i o).2.cost
      = (i : ℚ) / 1000000 * 0.80 + (o : ℚ) / 1000000 * 4.00 :=
  TokenTracker.track_claude st p i o h

theorem C9_amended_claude_first_segment_witness :
    (TokenTracker.track TokenTracker.reset "claude-3-5-haiku" 1000 500).2.provider = "anthropic" ∧
    (TokenTracker.track TokenTracker.reset "claude-3-5-haiku" 1000 500).2.cost
      = (1000 : ℚ) / 1000000 * 0.80 + (500 : ℚ) / 1000000 * 4.00 :=
  C9_amended_claude_first_segment TokenTracker.reset "claude-3-5-haiku" 1000 500 (by decide)

/-- C10: after every finite sequence of `track` and `reset` operations on a
freshly constructed `TokenTracker`, each global ledger counter equals the
column-wise sum of the per-provider breakdown. -/
theorem C10_ledger_column_sums (ops : List TokenTracker.TrackerOp) :
    TokenTracker.ledgerConsistent (TokenTracker.applyOps ops) :=
  TokenTracker.ledgerConsistent_applyOps ops
